import Mathlib

/-!
Verification of the we0-index lifecycle and health-monitoring layer.

Shallow embedding of three source files:
  - src/config/validation.py   (validate_environment)
  - src/utils/health_check.py  (check_vector_database_health,
    check_embedding_service_health, comprehensive_health_check)
  - src/launch/launch.py       (health_check endpoint handler, lifespan)

Python side effects are made explicit: the environment is a lookup
function, fallible calls are `Except String` values supplied through a
world record, log lines are collected in a returned list, and key
presence in a Python dict is an `Option`.
-/

set_option autoImplicit false

namespace We0Index

/-! ## Settings data model

Modelled from the spec: the Settings class itself (module setting.setting)
is not under src/; the spec (section 3) gives it a platform enumeration, a
per-platform configuration variant, and embedding provider and model
fields.  The code under src/ accesses settings.vector.platform,
settings.vector.pgvector / qdrant / chroma (truthiness only),
settings.vector.embedding_provider and settings.vector.embedding_model.
A platform configuration record is modelled as an `Option` of an opaque
record; Python falsiness of the field (None or empty record) is `none`.
-/

structure PgVectorConfig where
  dsn : String
deriving Repr, DecidableEq

structure QdrantConfig where
  url : String
deriving Repr, DecidableEq

structure ChromaConfig where
  path : String
deriving Repr, DecidableEq

structure VectorSettings where
  platform : String
  embedding_provider : String
  embedding_model : String
  pgvector : Option PgVectorConfig
  qdrant : Option QdrantConfig
  chroma : Option ChromaConfig
deriving Repr, DecidableEq

structure Settings where
  vector : VectorSettings
deriving Repr, DecidableEq

/-- Environment of the process: maps a variable name to its value when set,
mirroring os.environ.get. -/
def Env : Type := String → Option String

/-! ## src/config/validation.py -/

/-- Warning log lines emitted by the API-key section of validate_environment
(src/config/validation.py lines 33 to 41): for provider "openai" a warning
when OPENAI_API_KEY is unset, for provider "jina" a warning when
JINA_API_KEY is unset.  Warnings only go to the logger; they never change
the return value. -/
def apiKeyWarnings (v : VectorSettings) (env : Env) : List String :=
  (if v.embedding_provider == "openai" && (env "OPENAI_API_KEY").isNone
    then ["OPENAI_API_KEY not set"] else [])
  ++
  (if v.embedding_provider == "jina" && (env "JINA_API_KEY").isNone
    then ["JINA_API_KEY not set"] else [])

/-- Embedding of validate_environment (src/config/validation.py lines 7
to 47).  The first argument is the outcome of the settings load:
`Except.error e` when get_we0_index_settings (or anything in the body)
raises, `Except.ok none` when it returns a falsy value, and
`Except.ok (some s)` on success.  Returns the Python return value paired
with the list of log lines (error, warning and info messages). -/
def validate_environment (loadResult : Except String (Option Settings))
    (env : Env) : Bool × List String :=
  match loadResult with
  | .error e => (false, ["Validation failed: " ++ e])
  | .ok none => (false, ["Failed to load settings"])
  | .ok (some settings) =>
    if settings.vector.platform == "pgvector" then
      if settings.vector.pgvector.isNone then
        (false, ["PgVector configuration is missing"])
      else
        (true, apiKeyWarnings settings.vector env
          ++ ["Environment validation completed"])
    else if settings.vector.platform == "qdrant" then
      if settings.vector.qdrant.isNone then
        (false, ["Qdrant configuration is missing"])
      else
        (true, apiKeyWarnings settings.vector env
          ++ ["Environment validation completed"])
    else if settings.vector.platform == "chroma" then
      if settings.vector.chroma.isNone then
        (false, ["Chroma configuration is missing"])
      else
        (true, apiKeyWarnings settings.vector env
          ++ ["Environment validation completed"])
    else
      (true, apiKeyWarnings settings.vector env
        ++ ["Environment validation completed"])

/-- Environment in which no variable is set. -/
def emptyEnv : Env := fun _ => none

/-! ## src/utils/health_check.py

The per-service records returned by the two probes are Python dicts with
string keys and string or integer values; they are modelled as ordered
association lists over a small value type. -/

inductive Val where
  | str : String → Val
  | nat : Nat → Val
deriving Repr, DecidableEq

/-- A per-service health record: a Python dict in insertion order. -/
abbrev SRec : Type := List (String × Val)

/-- Python dict.get: the value at the first matching key, none when the
key is absent. -/
def rget {β : Type} (r : List (String × β)) (k : String) : Option β :=
  match r with
  | [] => none
  | (k', v) :: rest => if k' == k then some v else rget rest k

/-- Python list indexing: value at the index, or an IndexError. -/
def pyGetItem {α : Type} (l : List α) (i : Nat) : Except String α :=
  match l.get? i with
  | some x => .ok x
  | none => .error "list index out of range"

/-- Outcomes of the fallible calls made by check_vector_database_health:
get_we0_index_settings(), ExtManager.vector.init_app() and
ExtManager.vector.get_dimension().  Each is an `Except`: `.error e` when
the Python call raises an exception whose str() is e. -/
structure VectorWorld where
  settings : Except String Settings
  init_app : Except String Unit
  get_dimension : Except String Nat

/-- The body of the try block of check_vector_database_health
(src/utils/health_check.py lines 12 to 27) up to the data used by the
returned record: settings load, then init_app, then get_dimension, each
propagating its exception. -/
def vectorProbeRun (w : VectorWorld) : Except String (Settings × Nat) := do
  let s ← w.settings
  let _ ← w.init_app
  let d ← w.get_dimension
  pure (s, d)

/-- Embedding of check_vector_database_health (src/utils/health_check.py
lines 10 to 33): on success a healthy record with platform, dimension,
embedding provider and model; any exception is caught and turned into an
unhealthy record carrying the message. -/
def check_vector_database_health (w : VectorWorld) : SRec :=
  match vectorProbeRun w with
  | .ok (s, d) =>
    [("status", Val.str "healthy"),
     ("platform", Val.str s.vector.platform),
     ("dimension", Val.nat d),
     ("embedding_provider", Val.str s.vector.embedding_provider),
     ("embedding_model", Val.str s.vector.embedding_model)]
  | .error e =>
    [("status", Val.str "unhealthy"),
     ("error", Val.str e)]

/-- The embedding-model client obtained from
ExtManager.vector.get_embedding_model(): its model_type and model_name
attributes and its fallible create_embedding call, which returns one
vector of numbers per input text.  Vector entries are modelled as
integers; only the length of a vector is ever used. -/
structure EmbeddingModel where
  model_type : String
  model_name : String
  create_embedding : List String → Except String (List (List Int))

/-- Outcome of the ExtManager.vector.get_embedding_model() call made by
check_embedding_service_health. -/
structure EmbeddingWorld where
  get_embedding_model : Except String EmbeddingModel

/-- The body of the try block of check_embedding_service_health
(src/utils/health_check.py lines 35 to 49): obtain the model, embed the
probe string, then compute the reported dimension by the conditional
expression len(test_embeddings[0]) if test_embeddings else 0 — the
indexing is only reached when the result list is non-empty. -/
def embeddingProbeRun (w : EmbeddingWorld) :
    Except String (EmbeddingModel × Nat) := do
  let m ← w.get_embedding_model
  let test_embeddings ← m.create_embedding ["health check test"]
  let d ←
    if test_embeddings.isEmpty then pure 0
    else do
      let first ← pyGetItem test_embeddings 0
      pure first.length
  pure (m, d)

/-- Embedding of check_embedding_service_health (src/utils/health_check.py
lines 35 to 55): on success a healthy record with the probe dimension,
provider type and model name; any exception is caught and turned into an
unhealthy record carrying the message. -/
def check_embedding_service_health (w : EmbeddingWorld) : SRec :=
  match embeddingProbeRun w with
  | .ok (m, d) =>
    [("status", Val.str "healthy"),
     ("dimension", Val.nat d),
     ("provider", Val.str m.model_type),
     ("model", Val.str m.model_name)]
  | .error e =>
    [("status", Val.str "unhealthy"),
     ("error", Val.str e)]

/-- The filter condition of the unhealthy_services comprehension
(src/utils/health_check.py line 75): health.get("status") != "healthy",
where a missing status key (dict.get returning None) also counts as not
healthy. -/
def statusNotHealthy (health : SRec) : Bool :=
  !(rget health "status" == some (Val.str "healthy"))

/-- Inputs of one comprehensive_health_check call: the outcomes of the
probes of both dependencies, plus the event-loop clock reading used for
the timestamp field. -/
structure World where
  vector : VectorWorld
  embedding : EmbeddingWorld
  now : Nat

/-- The aggregated report (src/utils/health_check.py lines 59 to 63 and
73 to 80): a dict whose unhealthy_services key is present only when it is
assigned in the unhealthy branch, modelled as an `Option`.  The services
dict keeps insertion order: vector_database first, then
embedding_service. -/
structure HealthReport where
  overall_status : String
  timestamp : Nat
  services : List (String × SRec)
  unhealthy_services : Option (List String)
deriving Repr, DecidableEq

/-- Embedding of comprehensive_health_check (src/utils/health_check.py
lines 57 to 83): await the vector probe, then the embedding probe, insert
both records, then collect the names of services whose record has
status different from healthy (dict.get compared with a string, so a
missing status also counts) and flip the overall status when that list is
non-empty. -/
def comprehensive_health_check (w : World) : HealthReport :=
  let vector_health := check_vector_database_health w.vector
  let embedding_health := check_embedding_service_health w.embedding
  let services : List (String × SRec) :=
    [("vector_database", vector_health),
     ("embedding_service", embedding_health)]
  let unhealthy_services :=
    (services.filter (fun p => statusNotHealthy p.2)).map Prod.fst
  if unhealthy_services.isEmpty then
    { overall_status := "healthy", timestamp := w.now,
      services := services, unhealthy_services := none }
  else
    { overall_status := "unhealthy", timestamp := w.now,
      services := services, unhealthy_services := some unhealthy_services }

/-! ## Execution order of the probes inside comprehensive_health_check

comprehensive_health_check (src/utils/health_check.py lines 65 to 71)
awaits check_vector_database_health to completion and only then awaits
check_embedding_service_health; no task is created and asyncio.gather is
not used there.  Since each probe catches every exception of its own body,
both awaits always return normally, so the order of suspension events is
the same for every outcome of the underlying calls. -/

inductive HCEvent where
  | vectorProbeBegin
  | vectorProbeEnd
  | embeddingProbeBegin
  | embeddingProbeEnd
  | composeReport
deriving Repr, DecidableEq, BEq

/-- Index of the first occurrence of an event in a trace (length of the
trace when absent). -/
def evIndex (t : List HCEvent) (e : HCEvent) : Nat :=
  match t with
  | [] => 0
  | x :: rest => if x == e then 0 else evIndex rest e + 1

/-- The trace of probe begin and end events of one
comprehensive_health_check call (src/utils/health_check.py lines 65 to
71): the two probes are awaited one after the other, for every outcome of
the underlying calls. -/
def comprehensive_health_check_trace (_ : World) : List HCEvent :=
  [HCEvent.vectorProbeBegin, HCEvent.vectorProbeEnd,
   HCEvent.embeddingProbeBegin, HCEvent.embeddingProbeEnd,
   HCEvent.composeReport]

/-- Modelled from the spec: running the two probes concurrently as
independent tasks that do not block each other and joining both before
composing means that, in the event trace, both probes begin before either
probe is joined (its end reached only at the join), and the report is
composed after both ends — in particular the embedding probe begins
before the vector probe ends. -/
def concurrentLaunch (t : List HCEvent) : Prop :=
  evIndex t HCEvent.vectorProbeBegin < evIndex t HCEvent.vectorProbeEnd ∧
  evIndex t HCEvent.embeddingProbeBegin < evIndex t HCEvent.vectorProbeEnd ∧
  evIndex t HCEvent.vectorProbeBegin < evIndex t HCEvent.embeddingProbeEnd ∧
  evIndex t HCEvent.embeddingProbeBegin < evIndex t HCEvent.embeddingProbeEnd ∧
  evIndex t HCEvent.vectorProbeEnd < evIndex t HCEvent.composeReport ∧
  evIndex t HCEvent.embeddingProbeEnd < evIndex t HCEvent.composeReport

/-! ## src/launch/launch.py -/

/-- Body of a /health HTTP response: either the serialized report or the
minimal error object built in the except branch. -/
inductive HealthBody where
  | report : HealthReport → HealthBody
  | failure : String → String → HealthBody
deriving Repr, DecidableEq

/-- Embedding of the health_check endpoint handler (src/launch/launch.py
lines 77 to 89).  The argument is the outcome of the awaited
comprehensive_health_check() call: on success the report is returned with
status code 200 when overall_status is healthy and 503 otherwise; when
the call raises, the handler returns the body
status unhealthy / error message with status code 503. -/
def health_check_handler (result : Except String HealthReport) :
    HealthBody × Nat :=
  match result with
  | .ok health_status =>
    (HealthBody.report health_status,
     if health_status.overall_status == "healthy" then 200 else 503)
  | .error e =>
    (HealthBody.failure "unhealthy" e, 503)

/-- Events of one execution of the lifespan context manager
(src/launch/launch.py lines 40 to 48), each recorded when the
corresponding call is entered. -/
inductive LifeEvent where
  | logStart
  | initExtensions
  | serveRequests
  | closeExtensions
  | logClose
deriving Repr, DecidableEq, BEq

/-- Embedding of the lifespan context manager (src/launch/launch.py lines
40 to 48) as its event trace.  The try block runs Log.start(), then
await initialize_extensions(), then yields to the server; whichever of
these raises, control transfers to the finally block, which always runs
await close_extensions() and then Log.close().  close_extensions itself
(lines 36 to 37) has an empty body and cannot fail. -/
def lifespan_trace (logStart init_ext serve : Except String Unit) :
    List LifeEvent :=
  let fin := [LifeEvent.closeExtensions, LifeEvent.logClose]
  match logStart with
  | .error _ => LifeEvent.logStart :: fin
  | .ok _ =>
    match init_ext with
    | .error _ => LifeEvent.logStart :: LifeEvent.initExtensions :: fin
    | .ok _ =>
      match serve with
      | _ => LifeEvent.logStart :: LifeEvent.initExtensions ::
          LifeEvent.serveRequests :: fin

/-! ## Helper definitions and lemmas -/

/-- Whether a fallible call returned normally. -/
def exceptOk {α : Type} (r : Except String α) : Bool :=
  match r with
  | .ok _ => true
  | .error _ => false

/-- Sample settings: pgvector platform with a populated pgvector record. -/
def sPgGood : Settings :=
  ⟨⟨"pgvector", "openai", "text-embedding-3-small",
    some ⟨"postgresql://localhost:5432/we0"⟩, none, none⟩⟩

/-- Sample settings with an unsupported platform value and all three
platform configuration records absent. -/
def sMilvus : Settings :=
  ⟨⟨"milvus", "openai", "text-embedding-3-small", none, none, none⟩⟩

/-- Embedding-model client whose probe call returns one 3-entry vector. -/
def goodModel : EmbeddingModel :=
  ⟨"openai", "text-embedding-3-small", fun _ => Except.ok [[1, 2, 3]]⟩

/-- Embedding-model client whose probe call returns an empty result set. -/
def emptyResultModel : EmbeddingModel :=
  ⟨"openai", "text-embedding-3-small", fun _ => Except.ok []⟩

/-- World in which every underlying call succeeds. -/
def wGood : World :=
  ⟨⟨Except.ok sPgGood, Except.ok (), Except.ok 1536⟩,
   ⟨Except.ok goodModel⟩, 42⟩

/-- World in which both probes fail: the settings load raises and the
embedding model cannot be obtained. -/
def wBothFail : World :=
  ⟨⟨Except.error "connection refused", Except.ok (), Except.ok 1536⟩,
   ⟨Except.error "embedding client unavailable"⟩, 42⟩

/-- Embedding world whose probe call returns an empty result set. -/
def wEmptyResult : EmbeddingWorld := ⟨Except.ok emptyResultModel⟩

/-- The status field of the vector probe record is healthy exactly when
the underlying calls all returned normally, and unhealthy otherwise. -/
theorem vector_status_cases (w : VectorWorld) :
    (rget (check_vector_database_health w) "status" = some (Val.str "healthy")
      ↔ exceptOk (vectorProbeRun w) = true) ∧
    (rget (check_vector_database_health w) "status" = some (Val.str "healthy")
      ∨ rget (check_vector_database_health w) "status"
          = some (Val.str "unhealthy")) := by
  rcases h : vectorProbeRun w with e | ⟨s, d⟩ <;>
    simp [check_vector_database_health, h, rget, exceptOk]

/-- The status field of the embedding probe record is healthy exactly when
the underlying calls all returned normally, and unhealthy otherwise. -/
theorem embedding_status_cases (w : EmbeddingWorld) :
    (rget (check_embedding_service_health w) "status" = some (Val.str "healthy")
      ↔ exceptOk (embeddingProbeRun w) = true) ∧
    (rget (check_embedding_service_health w) "status" = some (Val.str "healthy")
      ∨ rget (check_embedding_service_health w) "status"
          = some (Val.str "unhealthy")) := by
  rcases h : embeddingProbeRun w with e | ⟨m, d⟩ <;>
    simp [check_embedding_service_health, h, rget, exceptOk]

/-- On a record whose status field is healthy the filter condition is
false. -/
theorem statusNotHealthy_of_healthy {r : SRec}
    (h : rget r "status" = some (Val.str "healthy")) :
    statusNotHealthy r = false := by
  unfold statusNotHealthy
  rw [h]
  decide

/-- On a record whose status field is unhealthy the filter condition is
true. -/
theorem statusNotHealthy_of_unhealthy {r : SRec}
    (h : rget r "status" = some (Val.str "unhealthy")) :
    statusNotHealthy r = true := by
  unfold statusNotHealthy
  rw [h]
  decide

/-- The services mapping of the report always holds exactly the two probe
records, vector_database first. -/
theorem comprehensive_services_eq (w : World) :
    (comprehensive_health_check w).services =
      [("vector_database", check_vector_database_health w.vector),
       ("embedding_service", check_embedding_service_health w.embedding)] := by
  simp only [comprehensive_health_check]
  split <;> rfl

/-! ## Claims -/

/-- C1: for every pair of probe outcomes, the report returned by
comprehensive_health_check has overall_status healthy exactly when every
entry of its services mapping has status healthy; in particular it is
unhealthy unless both the vector-database probe and the embedding-service
probe succeeded. -/
theorem C1_overall_status_iff (w : World) :
    ((comprehensive_health_check w).overall_status = "healthy" ↔
      ∀ p ∈ (comprehensive_health_check w).services,
        rget p.2 "status" = some (Val.str "healthy")) ∧
    ((comprehensive_health_check w).overall_status = "healthy" →
      exceptOk (vectorProbeRun w.vector) = true ∧
      exceptOk (embeddingProbeRun w.embedding) = true) := by
  have hv := vector_status_cases w.vector
  have he := embedding_status_cases w.embedding
  rcases hv.2 with h1 | h1 <;> rcases he.2 with h2 | h2 <;>
    simp [comprehensive_health_check, List.filter, h1, h2, ← hv.1, ← he.1,
      statusNotHealthy_of_healthy, statusNotHealthy_of_unhealthy]

/-- C1 witness: in the world where every underlying call succeeds, the
report is healthy and the theorem yields success of both probe runs. -/
theorem C1_witness :
    exceptOk (vectorProbeRun wGood.vector) = true ∧
    exceptOk (embeddingProbeRun wGood.embedding) = true :=
  (C1_overall_status_iff wGood).2 rfl

/-- C2: comprehensive_health_check never raises: for every outcome of the
two probes it returns a structured report holding both service entries,
and an exception raised inside either probe is caught locally and turned
into the entry status unhealthy / error message for that service, without
aborting the other probe or reaching the caller.  Totality is the type of
comprehensive_health_check itself; the first conjunct says both services
are always present, the other two give the converted entries. -/
theorem C2_probe_failure_containment (w : World) :
    ((comprehensive_health_check w).services.map Prod.fst =
      ["vector_database", "embedding_service"]) ∧
    (∀ e, vectorProbeRun w.vector = Except.error e →
      rget (comprehensive_health_check w).services "vector_database" =
        some [("status", Val.str "unhealthy"), ("error", Val.str e)]) ∧
    (∀ e, embeddingProbeRun w.embedding = Except.error e →
      rget (comprehensive_health_check w).services "embedding_service" =
        some [("status", Val.str "unhealthy"), ("error", Val.str e)]) := by
  refine ⟨?_, ?_, ?_⟩
  · rw [comprehensive_services_eq]
    rfl
  · intro e he
    rw [comprehensive_services_eq]
    simp [rget, check_vector_database_health, he]
  · intro e he
    rw [comprehensive_services_eq]
    simp [rget, check_embedding_service_health, he]

/-- C2 witness: in the world where both probes fail, the report still
carries the vector_database entry with the converted error message. -/
theorem C2_witness :
    rget (comprehensive_health_check wBothFail).services "vector_database" =
      some [("status", Val.str "unhealthy"),
            ("error", Val.str "connection refused")] :=
  (C2_probe_failure_containment wBothFail).2.1 "connection refused" rfl

/-- C4: the unhealthy_services key is present exactly when overall_status
is unhealthy, and when present it lists exactly the names of the services
whose entry is not healthy, in the stable order vector_database then
embedding_service; when both probes succeed the key is absent. -/
theorem C4_unhealthy_services_key (w : World) :
    ((comprehensive_health_check w).unhealthy_services.isSome = true ↔
      (comprehensive_health_check w).overall_status = "unhealthy") ∧
    (comprehensive_health_check w).unhealthy_services =
      (if (rget (check_vector_database_health w.vector) "status"
              = some (Val.str "healthy") ∧
           rget (check_embedding_service_health w.embedding) "status"
              = some (Val.str "healthy")) then
        none
       else
        some
          ((if rget (check_vector_database_health w.vector) "status"
                = some (Val.str "healthy") then [] else ["vector_database"]) ++
           (if rget (check_embedding_service_health w.embedding) "status"
                = some (Val.str "healthy") then []
            else ["embedding_service"]))) := by
  have hv := vector_status_cases w.vector
  have he := embedding_status_cases w.embedding
  rcases hv.2 with h1 | h1 <;> rcases he.2 with h2 | h2 <;>
    simp [comprehensive_health_check, List.filter, h1, h2,
      statusNotHealthy_of_healthy, statusNotHealthy_of_unhealthy]

/-- C5: when the create_embedding call of the probe returns an empty
result set, check_embedding_service_health does not index into it: the
returned record is healthy with dimension 0 instead of the record an
IndexError would have produced. -/
theorem C5_empty_result_dimension_zero (w : EmbeddingWorld)
    (m : EmbeddingModel)
    (h1 : w.get_embedding_model = Except.ok m)
    (h2 : m.create_embedding ["health check test"] = Except.ok []) :
    check_embedding_service_health w =
      [("status", Val.str "healthy"), ("dimension", Val.nat 0),
       ("provider", Val.str m.model_type),
       ("model", Val.str m.model_name)] := by
  simp [check_embedding_service_health, embeddingProbeRun, h1, h2,
    Bind.bind, Except.bind, Functor.map, Except.map, pure, Except.pure]

/-- C5 witness: a concrete embedding world whose probe call returns the
empty result set yields the healthy record with dimension 0. -/
theorem C5_witness :
    check_embedding_service_health wEmptyResult =
      [("status", Val.str "healthy"), ("dimension", Val.nat 0),
       ("provider", Val.str "openai"),
       ("model", Val.str "text-embedding-3-small")] :=
  C5_empty_result_dimension_zero wEmptyResult emptyResultModel rfl rfl

/-- C3 counterexample: the probes are not launched as concurrent
independent tasks — in the execution trace of comprehensive_health_check
the embedding probe begins only after the vector probe has already ended,
so the concurrent-launch property fails on every world, here on a
concrete one. -/
theorem C3_counterexample :
    ¬ concurrentLaunch (comprehensive_health_check_trace wBothFail) := by
  unfold concurrentLaunch comprehensive_health_check_trace
  decide

/-- C3 amended: comprehensive_health_check runs the two probes
sequentially — it awaits the vector-database probe to completion and only
then starts the embedding-service probe — and for every probe outcome
both probes run to completion (each catches its own failures, so neither
aborts the other) before the report is composed. -/
theorem C3_sequential_probes (w : World) :
    comprehensive_health_check_trace w =
      [HCEvent.vectorProbeBegin, HCEvent.vectorProbeEnd,
       HCEvent.embeddingProbeBegin, HCEvent.embeddingProbeEnd,
       HCEvent.composeReport] ∧
    evIndex (comprehensive_health_check_trace w) HCEvent.vectorProbeEnd <
      evIndex (comprehensive_health_check_trace w)
        HCEvent.embeddingProbeBegin ∧
    evIndex (comprehensive_health_check_trace w) HCEvent.vectorProbeEnd <
      evIndex (comprehensive_health_check_trace w) HCEvent.composeReport ∧
    evIndex (comprehensive_health_check_trace w) HCEvent.embeddingProbeEnd <
      evIndex (comprehensive_health_check_trace w) HCEvent.composeReport := by
  have ht : comprehensive_health_check_trace w =
      [HCEvent.vectorProbeBegin, HCEvent.vectorProbeEnd,
       HCEvent.embeddingProbeBegin, HCEvent.embeddingProbeEnd,
       HCEvent.composeReport] := rfl
  refine ⟨ht, ?_, ?_, ?_⟩ <;> rw [ht] <;> decide

/-- C6: for settings whose platform is one of the supported values, the
validation return value is true exactly when the matching
platform-specific configuration record is populated. -/
theorem C6_platform_config_iff (s : Settings) (env : Env) :
    (s.vector.platform = "pgvector" →
      ((validate_environment (Except.ok (some s)) env).1 = true ↔
        s.vector.pgvector.isSome = true)) ∧
    (s.vector.platform = "qdrant" →
      ((validate_environment (Except.ok (some s)) env).1 = true ↔
        s.vector.qdrant.isSome = true)) ∧
    (s.vector.platform = "chroma" →
      ((validate_environment (Except.ok (some s)) env).1 = true ↔
        s.vector.chroma.isSome = true)) := by
  refine ⟨?_, ?_, ?_⟩ <;> intro h <;>
    simp [validate_environment, h, Option.isNone_iff_eq_none,
      Option.isSome_iff_exists]
  · cases s.vector.pgvector <;> simp
  · cases s.vector.qdrant <;> simp
  · cases s.vector.chroma <;> simp

/-- C6 witness: pgvector settings with a populated pgvector record
validate successfully. -/
theorem C6_witness :
    (validate_environment (Except.ok (some sPgGood)) emptyEnv).1 = true :=
  ((C6_platform_config_iff sPgGood emptyEnv).1 rfl).mpr rfl

/-- C7: the /health handler returns the report with status code 200 when
its overall_status is healthy and 503 otherwise, and when the awaited
comprehensive_health_check call raises, it returns the minimal body
status unhealthy / error message with status code 503 instead of
propagating the exception. -/
theorem C7_health_endpoint (result : Except String HealthReport) :
    ((health_check_handler result).2 = 200 ∨
      (health_check_handler result).2 = 503) ∧
    ((health_check_handler result).2 = 200 ↔
      ∃ h, result = Except.ok h ∧ h.overall_status = "healthy") ∧
    (∀ h, result = Except.ok h →
      health_check_handler result =
        (HealthBody.report h,
         if h.overall_status = "healthy" then 200 else 503)) ∧
    (∀ e, result = Except.error e →
      health_check_handler result =
        (HealthBody.failure "unhealthy" e, 503)) := by
  rcases result with e | h0
  · simp [health_check_handler]
  · by_cases hs : h0.overall_status = "healthy" <;>
      simp [health_check_handler, hs]

/-- C7 witness: when the health check raises, the handler answers with
the minimal unhealthy body and status code 503. -/
theorem C7_witness :
    health_check_handler (Except.error "probe crashed") =
      (HealthBody.failure "unhealthy" "probe crashed", 503) :=
  (C7_health_endpoint (Except.error "probe crashed")).2.2.2
    "probe crashed" rfl

/-- C8: in every execution of the lifespan context manager — whatever the
outcome of Log.start, of initialize_extensions and of the serving phase —
close_extensions is invoked in the finally block before exit: the trace
always ends with the close_extensions call followed by the closing of the
log, and close_extensions is never called earlier. -/
theorem C8_close_extensions_always_runs
    (logStart init_ext serve : Except String Unit) :
    ∃ pre : List LifeEvent,
      lifespan_trace logStart init_ext serve =
        pre ++ [LifeEvent.closeExtensions, LifeEvent.logClose] ∧
      LifeEvent.closeExtensions ∉ pre := by
  rcases logStart with e | u
  · exact ⟨[LifeEvent.logStart], rfl, by simp⟩
  rcases init_ext with e | u
  · exact ⟨[LifeEvent.logStart, LifeEvent.initExtensions], rfl, by simp⟩
  rcases serve with e | u <;>
    exact ⟨[LifeEvent.logStart, LifeEvent.initExtensions,
      LifeEvent.serveRequests], rfl, by simp⟩

/-- C9: the return value of validate_environment does not depend on the
process environment at all — in particular it is the same whether or not
the API-key variable matching the selected embedding provider is set;
absence only adds a warning log line. -/
theorem C9_api_key_env_independent
    (loadResult : Except String (Option Settings)) (env1 env2 : Env) :
    (validate_environment loadResult env1).1 =
      (validate_environment loadResult env2).1 := by
  rcases loadResult with e | os
  · rfl
  rcases os with _ | s
  · rfl
  simp only [validate_environment]
  split_ifs <;> rfl

/-- C10: for settings whose platform is none of the supported values, no
platform-configuration check applies and validate_environment returns
true, whatever the configuration records and the environment hold. -/
theorem C10_unknown_platform_accepted (s : Settings) (env : Env)
    (h1 : s.vector.platform ≠ "pgvector")
    (h2 : s.vector.platform ≠ "qdrant")
    (h3 : s.vector.platform ≠ "chroma") :
    (validate_environment (Except.ok (some s)) env).1 = true := by
  simp [validate_environment, h1, h2, h3]

/-- C10 witness: settings selecting the unsupported platform milvus, with
every configuration record absent, still validate successfully. -/
theorem C10_witness :
    (validate_environment (Except.ok (some sMilvus)) emptyEnv).1 = true :=
  C10_unknown_platform_accepted sMilvus emptyEnv
    (by decide) (by decide) (by decide)

end We0Index
